import Mathlib

/-!
Verification of `streamlit_app.py` (Telecom 10-K Analyzer wrapper).

Shallow embedding: Python values that can be `None` or a string are
modelled by `PyVal`; calls into the external llama-index library that may
raise are modelled by `Except String _` where the error carries `str(e)`;
Streamlit output calls (`st.error`, `st.write`) are modelled as a list of
`UIEvent`s produced by each operation.
-/

/-- A Python value as it flows through this wrapper: either `None` or a
string.  The `response` attribute of a response object, and the value
returned by `query_index`, have this type. -/
inductive PyVal where
  | none
  | str (s : String)
deriving DecidableEq, Repr

/-- A structured response object as returned by the query engine.
`response_attr = some v` models `hasattr(response_obj, 'response')` being
true with `response_obj.response = v` (possibly Python `None`);
`response_attr = none` models the attribute being absent.  `strForm`
models `str(response_obj)`. -/
structure ResponseObj where
  response_attr : Option PyVal
  strForm : String
deriving DecidableEq, Repr

/-- An index handle.  `as_query_engine` models the call
`index.as_query_engine()`: it may raise (`.error msg` with `msg = str(e)`)
or return an engine, itself a fallible function from a query string to a
structured response object (`engine.query(query_text)`). -/
structure Index where
  as_query_engine : Except String (String → Except String ResponseObj)

/-- The two consecutive delegation statements inside the `try` block of
`query_index`: `query_engine = index.as_query_engine()` followed by
`response_obj = query_engine.query(query_text)`.  An exception from either
statement surfaces as `.error (str e)`. -/
def delegate (idx : Index) (query_text : String) : Except String ResponseObj :=
  match idx.as_query_engine with
  | .error e => .error e
  | .ok engine => engine query_text

/-- A Streamlit output event: `st.error msg`, `st.write msg` (string
argument), `st.write` of a directory listing, or `st.write` of a Python
value. -/
inductive UIEvent where
  | error (msg : String)
  | write (msg : String)
  | writeList (items : List String)
  | writeVal (v : PyVal)
deriving DecidableEq, Repr

/-- The observable outcome of one call to `query_index`: the returned
value, whether the handle's query interface was invoked (i.e. whether
control reached `index.as_query_engine()`), and the binding of the local
`index` variable when the function returns (the function body never
rebinds it, mirroring the Python source where `index` is only read). -/
structure QueryOutcome where
  result : PyVal
  delegated : Bool
  indexAfter : Option Index

/-- Embedding of `query_index(index, query_text)` (lines 94-110), with the
delegation flag and the final handle binding made explicit.  `index = none`
models a Python-falsy (`None`) handle, so `if not index:` takes the early
return; otherwise the `try` block delegates, extracts `response_obj.response`
when the attribute exists, falls back to `str(response_obj)`, and any
exception is converted to the `"Error processing query: "` string. -/
def query_index_full (index : Option Index) (query_text : String) : QueryOutcome :=
  match index with
  | none => ⟨.str "Error: Index not loaded properly.", false, none⟩
  | some idx =>
    match delegate idx query_text with
    | .error e => ⟨.str ("Error processing query: " ++ e), true, some idx⟩
    | .ok response_obj =>
      match response_obj.response_attr with
      | some v => ⟨v, true, some idx⟩
      | none => ⟨.str response_obj.strForm, true, some idx⟩

/-- The value returned by `query_index(index, query_text)`. -/
def query_index (index : Option Index) (query_text : String) : PyVal :=
  (query_index_full index query_text).result

/-- The environment `load_vector_index` runs in: whether
`os.path.exists("index_10k_storage")` holds, the result of
`os.listdir("index_10k_storage")`, and the combined outcome of
`StorageContext.from_defaults` followed by `load_index_from_storage`
(`.error (str e)` when either raises). -/
structure LoadEnv where
  dirExists : Bool
  listing : List String
  loadResult : Except String Index

/-- Embedding of the body of `load_vector_index` (lines 71-90): missing
directory reports an error and returns `None`; otherwise the directory
contents are written, the index is loaded, and any exception is caught,
reported via `st.error`, and converted to a `None` return. -/
def load_vector_index_body (env : LoadEnv) : Option Index × List UIEvent :=
  if env.dirExists = false then
    (none, [.error "The index_10k_storage directory doesn't exist. Please make sure it's correctly uploaded."])
  else
    match env.loadResult with
    | .ok index =>
      (some index, [.write "Index directory contents:", .writeList env.listing])
    | .error e =>
      (none, [.write "Index directory contents:", .writeList env.listing,
              .error ("Error loading index: " ++ e)])

/-- One invocation of the `@st.cache_resource`-decorated
`load_vector_index`: the returned handle, the cache afterwards, the UI
events emitted, and whether the function body actually ran. -/
structure CachedCall where
  result : Option Index
  cacheAfter : Option (Option Index)
  events : List UIEvent
  executed : Bool

/-- Embedding of `@st.cache_resource` applied to `load_vector_index`
(line 70): on a cache hit the cached value is returned and the body is not
executed (no events, no directory read); on a miss the body runs once and
its return value (including `None`) is stored in the cache. -/
def load_vector_index_cached (cache : Option (Option Index)) (env : LoadEnv) : CachedCall :=
  match cache with
  | some r => ⟨r, some r, [], false⟩
  | none =>
    let (r, evs) := load_vector_index_body env
    ⟨r, some r, evs, true⟩

/-- The environment of the module-level API-key resolution:
`st.secrets["OPENAI_API_KEY"]` either yields a string or raises (any
exception, caught by the bare `except:`), and `os.environ.get` yields an
optional string. -/
structure StartupEnv where
  secrets_key : Except String String
  env_key : Option String

/-- Outcome of the module-level startup code: either the script run
continues with the exported key, or it aborts with an uncaught exception.
Either way the `st.error` events emitted up to that point are recorded. -/
inductive StartupOutcome where
  | ok (exported_key : String) (events : List UIEvent)
  | crashed (exn_msg : String) (events : List UIEvent)
deriving Repr

/-- Embedding of lines 59-67: try the secrets store; on any exception fall
back to `os.environ.get("OPENAI_API_KEY")` and show `st.error` when the
result is falsy (`None` or the empty string); then execute
`os.environ["OPENAI_API_KEY"] = OPENAI_API_KEY`, which raises
`TypeError: str expected, not NoneType` when the key is `None`. -/
def startup_key (env : StartupEnv) : StartupOutcome :=
  match env.secrets_key with
  | .ok k => .ok k []
  | .error _ =>
    match env.env_key with
    | some k =>
      if k = "" then
        .ok k [.error "OpenAI API key not found. Please set it in the Streamlit secrets or as an environment variable."]
      else
        .ok k []
    | none =>
      .crashed "str expected, not NoneType"
        [.error "OpenAI API key not found. Please set it in the Streamlit secrets or as an environment variable."]

/-- Embedding of the submit-handling block of `main` (lines 149-159): when
the submit button fired, an exactly-empty query string (`if not query:`)
yields only a validation `st.error`; any other string is dispatched to
`query_index` and the response is written.  The boolean records whether
`query_index` was invoked. -/
def main_handle_submit (index : Option Index) (submit_button : Bool) (query : String) :
    List UIEvent × Bool :=
  if submit_button then
    if query = "" then
      ([.error "Please enter a query."], false)
    else
      ([.write "### Response", .writeVal (query_index index query)], true)
  else
    ([], false)

/-- Concrete stub: a response object whose `response` attribute is the
string `"X"`. -/
def stub_obj_X : ResponseObj := ⟨some (.str "X"), "Response(X)"⟩

/-- Concrete stub: an index whose query engine returns `stub_obj_X` on
every query. -/
def stub_index_X : Index := ⟨.ok (fun _ => .ok stub_obj_X)⟩

/-- Concrete stub: a response object whose `response` attribute is Python
`None`. -/
def stub_obj_none : ResponseObj := ⟨some PyVal.none, "None"⟩

/-- Concrete stub: an index whose query engine returns `stub_obj_none`. -/
def stub_index_none : Index := ⟨.ok (fun _ => .ok stub_obj_none)⟩

/-- Concrete stub: an index whose query engine raises `"boom"` on every
query. -/
def raising_index : Index := ⟨.ok (fun _ => .error "boom")⟩

/-- C1: for a non-null handle whose query interface returns a structured
response object, `query_index` returns the object's `response` attribute
when present and otherwise `str(response_obj)`; in particular a stub whose
text field is `"X"` yields exactly `"X"` (see the witness). -/
theorem query_index_text_extraction (idx : Index) (q : String) (obj : ResponseObj)
    (h : delegate idx q = .ok obj) :
    query_index (some idx) q =
      match obj.response_attr with
      | some v => v
      | none => PyVal.str obj.strForm := by
  cases hr : obj.response_attr <;> simp [query_index, query_index_full, h, hr]

/-- Witness for C1: the stubbed index whose response object carries the
text field `"X"` makes `query_index` return exactly `"X"`. -/
theorem query_index_text_extraction_witness :
    query_index (some stub_index_X) "q" = PyVal.str "X" :=
  query_index_text_extraction stub_index_X "q" stub_obj_X rfl

/-- C2: any exception raised during delegation is caught and converted to
a string beginning with `"Error processing query:"` followed by the
message; the result is an ordinary return value (the codomain of
`query_index` is `PyVal`, not an exception type, so nothing propagates)
and the handle binding is unchanged, so subsequent calls behave
identically. -/
theorem query_index_catches_exception (idx : Index) (q e : String)
    (h : delegate idx q = .error e) :
    query_index (some idx) q = .str ("Error processing query: " ++ e)
    ∧ (∃ rest, "Error processing query: " ++ e = "Error processing query:" ++ rest)
    ∧ (query_index_full (some idx) q).indexAfter = some idx := by
  refine ⟨?_, ⟨" " ++ e, ?_⟩, ?_⟩
  · simp [query_index, query_index_full, h]
  · cases e with
    | mk d => rfl
  · simp [query_index_full, h]

/-- Witness for C2: an index whose engine raises `"boom"` yields the
error string, and the handle binding is unchanged afterwards. -/
theorem query_index_catches_exception_witness :
    query_index (some raising_index) "q" = .str ("Error processing query: " ++ "boom")
    ∧ (query_index_full (some raising_index) "q").indexAfter = some raising_index :=
  ⟨(query_index_catches_exception raising_index "q" "boom" rfl).1,
   (query_index_catches_exception raising_index "q" "boom" rfl).2.2⟩

/-- C3: for every query string, a null index handle yields exactly
`"Error: Index not loaded properly."`, the query interface is never
invoked (`delegated = false`, so no network call is attempted), and the
handle stays null. -/
theorem query_index_null_handle (q : String) :
    query_index_full none q =
      ⟨.str "Error: Index not loaded properly.", false, none⟩ := rfl

/-- C4: `load_vector_index` yields no handle exactly on the failure
conditions (missing directory, or the library raising during load), every
failure emits a user-visible `st.error`, and a successful load of a valid
directory returns the library's handle itself (non-null, never a
partially-constructed one). -/
theorem load_vector_index_failure_spec (env : LoadEnv) :
    ((load_vector_index_body env).1 = none ↔
      env.dirExists = false ∨ ∃ e, env.loadResult = .error e)
    ∧ ((load_vector_index_body env).1 = none →
        ∃ m, UIEvent.error m ∈ (load_vector_index_body env).2)
    ∧ (∀ i, env.dirExists = true → env.loadResult = .ok i →
        (load_vector_index_body env).1 = some i) := by
  obtain ⟨d, l, r⟩ := env
  cases d <;> cases r <;> simp [load_vector_index_body]

/-- Witness for C4: with the index directory absent, the load yields no
handle and an `st.error` event is among the emitted events. -/
theorem load_vector_index_failure_spec_witness :
    (load_vector_index_body ⟨false, [], .error "x"⟩).1 = none
    ∧ ∃ m, UIEvent.error m ∈ (load_vector_index_body ⟨false, [], .error "x"⟩).2 :=
  ⟨(load_vector_index_failure_spec ⟨false, [], .error "x"⟩).1.mpr (Or.inl rfl),
   (load_vector_index_failure_spec ⟨false, [], .error "x"⟩).2.1
     ((load_vector_index_failure_spec ⟨false, [], .error "x"⟩).1.mpr (Or.inl rfl))⟩

/-- C5: a second invocation of the cached `load_vector_index` returns the
value cached by the first invocation, does not execute the body
(`executed = false`: no directory read, no events), and leaves the cache
unchanged — regardless of the environment at the second call. -/
theorem load_vector_index_memoized (env env2 : LoadEnv) :
    (load_vector_index_cached (load_vector_index_cached none env).cacheAfter env2).result
      = (load_vector_index_cached none env).result
    ∧ (load_vector_index_cached (load_vector_index_cached none env).cacheAfter env2).executed
      = false
    ∧ (load_vector_index_cached (load_vector_index_cached none env).cacheAfter env2).events
      = []
    ∧ (load_vector_index_cached (load_vector_index_cached none env).cacheAfter env2).cacheAfter
      = (load_vector_index_cached none env).cacheAfter := by
  cases hb : load_vector_index_body env with
  | mk r evs => simp [load_vector_index_cached, hb]

/-- C6 (divergence exhibit): when the key is in neither the secrets store
nor the environment, the startup code does surface the `st.error`
message, but then `os.environ["OPENAI_API_KEY"] = None` raises an uncaught
`TypeError`, aborting the script run instead of keeping the UI shell
alive. -/
theorem startup_key_crashes_when_absent :
    startup_key ⟨.error "KeyError", none⟩ =
      .crashed "str expected, not NoneType"
        [.error "OpenAI API key not found. Please set it in the Streamlit secrets or as an environment variable."] :=
  rfl

/-- C7: when the submit button fires with the empty query string, `main`
emits only the validation error and never invokes `query_index`; and
`query_index` itself performs no emptiness check — with a non-null handle
it delegates every query string, the empty one included. -/
theorem main_rejects_empty_query (index : Option Index) (idx : Index) (q : String) :
    main_handle_submit index true "" = ([.error "Please enter a query."], false)
    ∧ (query_index_full (some idx) q).delegated = true := by
  constructor
  · rfl
  · cases hd : delegate idx q with
    | error e => simp [query_index_full, hd]
    | ok obj => cases ho : obj.response_attr <;> simp [query_index_full, hd, ho]

/-- C8: query dispatch leaves the index handle unchanged — after any call
to `query_index`, the handle binding equals the one passed in. -/
theorem query_index_preserves_handle (index : Option Index) (q : String) :
    (query_index_full index q).indexAfter = index := by
  cases index with
  | none => rfl
  | some idx =>
    cases hd : delegate idx q with
    | error e => simp [query_index_full, hd]
    | ok obj => cases ho : obj.response_attr <;> simp [query_index_full, hd, ho]

/-- C9: the UI emptiness check rejects only the exactly-empty string: a
non-empty query consisting only of whitespace passes the check and is
dispatched to `query_index`. -/
theorem main_dispatches_whitespace_query (index : Option Index) (q : String)
    (hne : q ≠ "") (hws : q.data.all Char.isWhitespace = true) :
    main_handle_submit index true q =
      ([.write "### Response", .writeVal (query_index index q)], true) := by
  simp [main_handle_submit, hne]

/-- Witness for C9: the single-space query is non-empty, all-whitespace,
and gets dispatched rather than rejected. -/
theorem main_dispatches_whitespace_query_witness :
    (" " ≠ "") ∧ (" ".data.all Char.isWhitespace = true)
    ∧ main_handle_submit none true " " =
        ([.write "### Response", .writeVal (query_index none " ")], true) :=
  ⟨by decide, by decide,
   main_dispatches_whitespace_query none " " (by decide) (by decide)⟩

/-- C10: when the `response` attribute is present, `query_index` returns
its value verbatim — no trimming, formatting or conversion — including
when that value is Python `None` or the empty string, so the dispatch
result need not be a non-empty string. -/
theorem query_index_returns_attr_verbatim (idx : Index) (q : String)
    (obj : ResponseObj) (v : PyVal)
    (hd : delegate idx q = .ok obj) (ha : obj.response_attr = some v) :
    query_index (some idx) q = v := by
  simp [query_index, query_index_full, hd, ha]

/-- Witness for C10: a stub whose `response` attribute is Python `None`
makes `query_index` return `None` itself. -/
theorem query_index_returns_attr_verbatim_witness :
    query_index (some stub_index_none) "q" = PyVal.none :=
  query_index_returns_attr_verbatim stub_index_none "q" stub_obj_none PyVal.none rfl rfl
